import Mathlib

/-!
Verification of the two-tier web application in
`PEM/PROJECT/Frontend/app.js` (an Express server backed by a MySQL
connection).  The JavaScript program is shallowly embedded below:

* `PORT`, `dbConfig`, `queryText`, `welcomeString` are the program's
  constants (app.js lines 4, 6-11, 14);
* `dbCallback` is the callback passed to `db.query` (lines 14-17),
  including the unguarded `results[0].message` access, which on an empty
  result list raises a type error (`Outcome.undefinedAccess`);
* `handleRoot` is the `app.get` handler (lines 13-18);
* `handleRequest` is Express dispatch of one request: the single
  registered route is `GET /`;
* `startup` builds the server state created at module load (lines 1-11,
  20-22): one connection, the fixed port, the one route.  Its `_env`
  parameter stands for the process environment, which the code never
  reads;
* `runStatement` models the MySQL server evaluating the only statement
  form the application ever issues, `SELECT "<literal>" AS message`: a
  read-only statement producing a single row whose single `message`
  column holds the literal.  Statements not of that form produce an
  error and also leave the database state unchanged.
-/

namespace TwoTierApp

/-- app.js line 4: the fixed listening port. -/
def PORT : Nat := 3000

/-- The welcome literal selected by the hardcoded query (app.js line 14). -/
def welcomeString : String := "Welcome to the 2-tier Dockerized App"

/-- The exact SQL text passed to `db.query` (app.js line 14). -/
def queryText : String := "SELECT \"Welcome to the 2-tier Dockerized App\" AS message"

/-- The connection parameters passed to `mysql.createConnection` (app.js lines 6-11). -/
structure ConnectionConfig where
  host : String
  user : String
  password : String
  database : String
deriving DecidableEq, Repr

/-- app.js lines 6-11: the hardcoded configuration object, fields
host, user, password, database. -/
def dbConfig : ConnectionConfig := ⟨"db", "myuser", "mypassword", "mydb"⟩

/-- A database connection object: its configuration and an identity. -/
structure Connection where
  config : ConnectionConfig
  id : Nat
deriving DecidableEq, Repr

/-- A result row: the query aliases its one column `AS message`, so a
row carries a single `message` field. -/
structure Row where
  message : String
deriving DecidableEq, Repr

/-- An incoming HTTP request: method, path, query-string parameters,
headers and body. -/
structure Request where
  method : String
  path : String
  queryParams : List (String × String)
  headers : List (String × String)
  body : String
deriving DecidableEq, Repr

/-- What a request handler can do: send an HTTP response with a status
and body, throw a database error unhandled, raise a type error from
reading `.message` of `undefined` (the unguarded `results[0]` access),
or fall through to the framework's route-not-found reply. -/
inductive Outcome where
  | respond (status : Nat) (body : String)
  | thrown (err : String)
  | undefinedAccess
  | routeNotFound
deriving DecidableEq, Repr

/-- Whether the outcome carries an HTTP response produced by the
application code. -/
def hasHttpResponse : Outcome → Bool
  | Outcome.respond _ _ => true
  | _ => false

/-- Database contents: named tables of string rows.  The application
never touches any table, so the theorems hold for arbitrary contents. -/
structure DbState where
  tables : List (String × List (List String))
deriving DecidableEq, Repr

/-- The state of the database side of the connection: reachable with
some contents, or unreachable with the error each query reports. -/
inductive DbSide where
  | up (st : DbState)
  | down (e : String)
deriving DecidableEq, Repr

/-- Strip an expected sequence of characters from the front of a list,
returning the remainder if the sequence is present. -/
def dropPre : List Char → List Char → Option (List Char)
  | [], cs => some cs
  | _ :: _, [] => none
  | p :: ps, c :: cs => if c = p then dropPre ps cs else none

/-- Recognize a statement of the form `SELECT "<literal>" AS message`
and extract the literal. -/
def parseSelectLiteral (q : String) : Option String :=
  match dropPre "SELECT \"".data q.data with
  | none => none
  | some rest =>
    match dropPre "\" AS message".data.reverse rest.reverse with
    | none => none
    | some mid => some (String.mk mid.reverse)

/-- The MySQL server evaluating one statement against its state.  The
only statement form the application issues selects a string literal:
it reads no table, writes nothing, and yields one row with one
`message` column equal to the literal.  Any other text is a parse
error; either way the database state is returned unchanged. -/
def runStatement (st : DbState) (q : String) : DbState × (Option String × List Row) :=
  match parseSelectLiteral q with
  | some lit => (st, (none, [Row.mk lit]))
  | none => (st, (some "ER_PARSE_ERROR", []))

/-- `db.query` as seen through the connection: when the database is
reachable the statement runs; when it is not, the callback receives a
connection error and no rows. -/
def dbQuery (side : DbSide) (q : String) : DbSide × (Option String × List Row) :=
  match side with
  | DbSide.up st =>
    let r := runStatement st q
    (DbSide.up r.1, r.2)
  | DbSide.down e => (DbSide.down e, (some e, []))

/-- app.js lines 14-17, the callback given to `db.query`:
`if (err) throw err; res.send(results[0].message)`.  On a non-null
error the error is thrown; otherwise `results[0]` is read without a
guard, so an empty result list raises a type error, and a non-empty
one sends its first row's `message` with Express's default status 200. -/
def dbCallback (err : Option String) (results : List Row) : Outcome :=
  match err with
  | some e => Outcome.thrown e
  | none =>
    match results with
    | [] => Outcome.undefinedAccess
    | r :: _ => Outcome.respond 200 r.message

/-- app.js lines 13-18, the `GET /` handler.  It ignores the request
object, issues the single hardcoded query over the connection and runs
the callback on the result.  It returns the connection state after the
query, the outcome, and the list of query texts it issued. -/
def handleRoot (_req : Request) (side : DbSide) : DbSide × Outcome × List String :=
  let r := dbQuery side queryText
  (r.1, dbCallback r.2.1 r.2.2, [queryText])

/-- The server state built at module load: the one connection created
by `mysql.createConnection` (with a count of creation calls), the
fixed port, and the route table with the single `app.get` registration. -/
structure ServerState where
  conn : Connection
  connectionsCreated : Nat
  port : Nat
  routes : List (String × String)
deriving DecidableEq, Repr

/-- Process startup (app.js lines 1-11 and 20-22).  The `_env`
parameter is the process environment; the source reads no environment
variable, so the resulting state does not depend on it.  Exactly one
connection is created, with the hardcoded configuration. -/
def startup (_env : List (String × String)) : ServerState :=
  ⟨⟨dbConfig, 0⟩, 1, PORT, [("GET", "/")]⟩

/-- Express dispatch of one request against the running server: the
only registered route is `GET /`; anything else falls through to the
framework's not-found reply without touching the database.  Returns
the server state, the connection state, the outcome and the issued
query texts. -/
def handleRequest (ss : ServerState) (side : DbSide) (req : Request) :
    ServerState × DbSide × Outcome × List String :=
  if req.method = "GET" ∧ req.path = "/" then
    let r := handleRoot req side
    (ss, r.1, r.2.1, r.2.2)
  else
    (ss, side, Outcome.routeNotFound, [])

/-- Handle a sequence of requests, threading server and connection
state. -/
def handleMany (ss : ServerState) (side : DbSide) : List Request → ServerState × DbSide
  | [] => (ss, side)
  | req :: rest =>
    let r := handleRequest ss side req
    handleMany r.1 r.2.1 rest

/-- An empty database, used to instantiate theorems at a concrete state. -/
def dbEmpty : DbState := ⟨[]⟩

/-- A concrete plain `GET /` request. -/
def rootGetRequest : Request := ⟨"GET", "/", [], [], ""⟩

/-- A concrete `GET /` request with query parameters, headers and a
body, all of which the handler ignores. -/
def rootGetRequestDecorated : Request :=
  ⟨"GET", "/", [("debug", "1")], [("X-Test", "yes")], "ignored body"⟩

end TwoTierApp

namespace TwoTierApp

/-- The hardcoded statement parses as a select of the welcome literal. -/
theorem parse_queryText : parseSelectLiteral queryText = some welcomeString := by
  decide

/-- Running the hardcoded statement on any reachable database succeeds
with the single welcome row and leaves the database unchanged. -/
theorem runStatement_queryText (st : DbState) :
    runStatement st queryText = (st, (none, [Row.mk welcomeString])) := by
  simp [runStatement, parse_queryText]

/-- Dispatch never changes the server state or the connection state. -/
theorem handleRequest_frame (ss : ServerState) (side : DbSide) (req : Request) :
    (handleRequest ss side req).1 = ss ∧ (handleRequest ss side req).2.1 = side := by
  cases side with
  | up st =>
    simp only [handleRequest, handleRoot, dbQuery, runStatement_queryText]
    split <;> simp
  | down e =>
    simp only [handleRequest, handleRoot, dbQuery]
    split <;> simp

/-- C1: a `GET /` request served while the database is reachable is
answered with status 200 and body exactly the configured welcome
string returned by the database query. -/
theorem c1_get_root_success_returns_welcome (env : List (String × String))
    (db : DbState) (req : Request) (hm : req.method = "GET") (hp : req.path = "/") :
    handleRequest (startup env) (DbSide.up db) req =
      (startup env, DbSide.up db, Outcome.respond 200 welcomeString, [queryText]) := by
  simp [handleRequest, hm, hp, handleRoot, dbQuery, runStatement_queryText, dbCallback]

/-- C1 witness: the concrete plain `GET /` request on an empty database. -/
theorem c1_witness :
    handleRequest (startup []) (DbSide.up dbEmpty) rootGetRequest =
      (startup [], DbSide.up dbEmpty, Outcome.respond 200 welcomeString, [queryText]) :=
  c1_get_root_success_returns_welcome [] dbEmpty rootGetRequest rfl rfl

/-- C2: when the database query fails, the handler throws the error
unhandled: no HTTP response is produced, and exactly one query was
attempted (no retry, no recovery). -/
theorem c2_get_root_failure_thrown (ss : ServerState) (e : String) (req : Request)
    (hm : req.method = "GET") (hp : req.path = "/") :
    handleRequest ss (DbSide.down e) req =
      (ss, DbSide.down e, Outcome.thrown e, [queryText])
    ∧ hasHttpResponse (Outcome.thrown e) = false := by
  refine ⟨?_, rfl⟩
  simp [handleRequest, hm, hp, handleRoot, dbQuery, dbCallback]

/-- C2 witness: a concrete unreachable connection and the plain `GET /`. -/
theorem c2_witness :
    handleRequest (startup []) (DbSide.down "ECONNREFUSED") rootGetRequest =
      (startup [], DbSide.down "ECONNREFUSED", Outcome.thrown "ECONNREFUSED", [queryText])
    ∧ hasHttpResponse (Outcome.thrown "ECONNREFUSED") = false :=
  c2_get_root_failure_thrown (startup []) "ECONNREFUSED" rootGetRequest rfl rfl

/-- C3: every request to the one route issues exactly the one
hardcoded query text and nothing else; on a reachable database that
statement yields a single one-column row holding the constant welcome
string, and the handler forwards exactly that string with status 200. -/
theorem c3_one_hardcoded_query (ss : ServerState) (side : DbSide) (req : Request)
    (hm : req.method = "GET") (hp : req.path = "/") :
    (handleRequest ss side req).2.2.2 = [queryText]
    ∧ ∀ db : DbState, side = DbSide.up db →
        runStatement db queryText = (db, (none, [Row.mk welcomeString]))
        ∧ (handleRequest ss side req).2.2.1 = Outcome.respond 200 welcomeString := by
  refine ⟨?_, ?_⟩
  · cases side with
    | up st => simp [handleRequest, hm, hp, handleRoot, dbQuery, runStatement_queryText]
    | down e => simp [handleRequest, hm, hp, handleRoot, dbQuery]
  · rintro db rfl
    refine ⟨runStatement_queryText db, ?_⟩
    simp [handleRequest, hm, hp, handleRoot, dbQuery, runStatement_queryText, dbCallback]

/-- C3 witness: the concrete plain `GET /` request on an empty database. -/
theorem c3_witness :
    (handleRequest (startup []) (DbSide.up dbEmpty) rootGetRequest).2.2.2 = [queryText]
    ∧ ∀ db : DbState, DbSide.up dbEmpty = DbSide.up db →
        runStatement db queryText = (db, (none, [Row.mk welcomeString]))
        ∧ (handleRequest (startup []) (DbSide.up dbEmpty) rootGetRequest).2.2.1 =
            Outcome.respond 200 welcomeString :=
  c3_one_hardcoded_query (startup []) (DbSide.up dbEmpty) rootGetRequest rfl rfl

/-- C4: startup creates exactly one connection, and after any sequence
of requests the server state — the connection object included — is
exactly the startup state: no operation creates another connection or
discards the existing one. -/
theorem c4_single_connection_reused (env : List (String × String)) (side : DbSide)
    (reqs : List Request) :
    (startup env).connectionsCreated = 1
    ∧ (handleMany (startup env) side reqs).1 = startup env := by
  refine ⟨rfl, ?_⟩
  induction reqs generalizing side with
  | nil => rfl
  | cons req rest ih =>
    have h := handleRequest_frame (startup env) side req
    simp only [handleMany, h.1, h.2]
    exact ih _

/-- C5: the listening port is the constant 3000, independent of the
environment, and handling a request never changes it. -/
theorem c5_fixed_port (env : List (String × String)) (ss : ServerState)
    (side : DbSide) (req : Request) :
    PORT = 3000 ∧ (startup env).port = 3000
    ∧ ((handleRequest ss side req).1).port = ss.port := by
  refine ⟨rfl, rfl, ?_⟩
  rw [(handleRequest_frame ss side req).1]

/-- C6: the connection is created with the hardcoded host, user,
password and database name, identically on every run whatever the
environment holds. -/
theorem c6_hardcoded_config (env : List (String × String)) :
    (startup env).conn.config = ConnectionConfig.mk "db" "myuser" "mypassword" "mydb"
    ∧ (startup env).conn.config = dbConfig := ⟨rfl, rfl⟩

/-- C7: a `GET /` request has exactly two possible outcomes — a 200
response carrying the welcome string, or a thrown error with no HTTP
response — and any HTTP response it produces has status 200 with the
welcome body, never a non-200 error response. -/
theorem c7_two_outcomes (ss : ServerState) (side : DbSide) (req : Request)
    (hm : req.method = "GET") (hp : req.path = "/") :
    ((handleRequest ss side req).2.2.1 = Outcome.respond 200 welcomeString
      ∨ ∃ e, (handleRequest ss side req).2.2.1 = Outcome.thrown e
          ∧ hasHttpResponse (Outcome.thrown e) = false)
    ∧ ∀ s b, (handleRequest ss side req).2.2.1 = Outcome.respond s b →
        s = 200 ∧ b = welcomeString := by
  cases side with
  | up st =>
    have h : (handleRequest ss (DbSide.up st) req).2.2.1 =
        Outcome.respond 200 welcomeString := by
      simp [handleRequest, hm, hp, handleRoot, dbQuery, runStatement_queryText, dbCallback]
    refine ⟨Or.inl h, ?_⟩
    intro s b hsb
    rw [h] at hsb
    cases hsb
    exact ⟨rfl, rfl⟩
  | down e =>
    have h : (handleRequest ss (DbSide.down e) req).2.2.1 = Outcome.thrown e := by
      simp [handleRequest, hm, hp, handleRoot, dbQuery, dbCallback]
    refine ⟨Or.inr ⟨e, h, rfl⟩, ?_⟩
    intro s b hsb
    rw [h] at hsb
    cases hsb

/-- C7 witness: the dichotomy at the concrete plain `GET /` request on
an empty reachable database. -/
theorem c7_witness :
    ((handleRequest (startup []) (DbSide.up dbEmpty) rootGetRequest).2.2.1 =
        Outcome.respond 200 welcomeString
      ∨ ∃ e, (handleRequest (startup []) (DbSide.up dbEmpty) rootGetRequest).2.2.1 =
            Outcome.thrown e
          ∧ hasHttpResponse (Outcome.thrown e) = false)
    ∧ ∀ s b, (handleRequest (startup []) (DbSide.up dbEmpty) rootGetRequest).2.2.1 =
          Outcome.respond s b → s = 200 ∧ b = welcomeString :=
  c7_two_outcomes (startup []) (DbSide.up dbEmpty) rootGetRequest rfl rfl

/-- C8: the success branch indexes the result list without a guard: a
successful query with an empty result list raises an undefined access,
while any non-empty result list yields a 200 response carrying the
first row's message field. -/
theorem c8_unguarded_indexing :
    dbCallback none [] = Outcome.undefinedAccess
    ∧ ∀ (r : Row) (rs : List Row),
        dbCallback none (r :: rs) = Outcome.respond 200 r.message :=
  ⟨rfl, fun _ _ => rfl⟩

/-- C9: the handler reads nothing from the request, so any two `GET /`
requests — whatever their query parameters, headers or bodies — produce
identical results from the same state. -/
theorem c9_request_independence (ss : ServerState) (side : DbSide)
    (r1 r2 : Request) (h1m : r1.method = "GET") (h1p : r1.path = "/")
    (h2m : r2.method = "GET") (h2p : r2.path = "/") :
    handleRequest ss side r1 = handleRequest ss side r2 := by
  simp [handleRequest, h1m, h1p, h2m, h2p, handleRoot]

/-- C9 witness: the plain request and a request with query parameters,
headers and a body give the same result. -/
theorem c9_witness :
    handleRequest (startup []) (DbSide.up dbEmpty) rootGetRequest =
      handleRequest (startup []) (DbSide.up dbEmpty) rootGetRequestDecorated :=
  c9_request_independence (startup []) (DbSide.up dbEmpty) rootGetRequest
    rootGetRequestDecorated rfl rfl rfl rfl

/-- C10: handling any request leaves every piece of state unchanged:
the server state (connection object, port, routes) and the database
side are returned exactly as given, the only statement issued being a
read-only select of a literal. -/
theorem c10_handling_preserves_state (ss : ServerState) (side : DbSide)
    (req : Request) :
    (handleRequest ss side req).1 = ss ∧ (handleRequest ss side req).2.1 = side
    ∧ ∀ st : DbState, runStatement st queryText = (st, (none, [Row.mk welcomeString])) :=
  ⟨(handleRequest_frame ss side req).1, (handleRequest_frame ss side req).2,
    fun st => runStatement_queryText st⟩

end TwoTierApp
